import Mathlib

/-!
Shallow embedding of `orchestrator/api/helpers.py` (florisie/orchestrator-core).

Python values that the path accessors walk over are modelled by the inductive
type `Value`: `None`, ints, strings, dicts (association lists with string keys,
in insertion order) and lists.  Python exceptions raised by the walked code are
modelled by `PyErr`; fallible operations return `Except PyErr _`.
-/

inductive PyErr where
  | typeError
  | keyError
  | indexError
  | valueError
deriving DecidableEq

inductive Value where
  | vnull
  | vint (n : Int)
  | vstr (s : String)
  | vdict (d : List (String × Value))
  | vlist (l : List Value)

def Value.isList : Value → Bool
  | .vlist _ => true
  | _ => false

/-- Python `str.isdigit()` restricted to ASCII digits (the only ones the
claims exercise; Python additionally accepts some unicode digit classes). -/
def pyIsDigit (s : String) : Bool :=
  !s.isEmpty && s.data.all Char.isDigit

/-- `int(x)` for an all-digit string `x`: plain decimal reading. -/
def pyStrToNat (s : String) : Nat :=
  s.data.foldl (fun n c => 10 * n + (c.toNat - 48)) 0

/-- Python `dict(v)`.  On a dict it builds a shallow copy (a copy whose
entries are shared); on `None`/ints it raises `TypeError`; on a nonempty
string it raises `ValueError` (each character is a length-1 sequence); the
empty string yields `{}`.  `dict` applied to a Python list succeeds only when
every element is a key/value pair, a case no claim reaches; such lists are
modelled as the common `TypeError` outcome. -/
def pyDict : Value → Except PyErr (List (String × Value))
  | .vdict d => .ok d
  | .vstr s => if s.isEmpty then .ok [] else .error .valueError
  | _ => .error .typeError

/-- Python `d.get(x)`: `None` when the key is absent. -/
def dictGet (d : List (String × Value)) (x : String) : Value :=
  (d.lookup x).getD .vnull

/-- Python `v[i]` for a nonnegative integer index `i`. -/
def pyIndex : Value → Nat → Except PyErr Value
  | .vlist l, i =>
      match l.get? i with
      | some v => .ok v
      | none => .error .indexError
  | _, _ => .error .typeError

/-- Python `v[x]` for a string `x`: dict lookup (KeyError when absent);
on every non-dict it raises `TypeError` (list/str indices must be integers,
`None`/ints are not subscriptable). -/
def getItem : Value → String → Except PyErr Value
  | .vdict d, x =>
      match d.lookup x with
      | some v => .ok v
      | none => .error .keyError
  | _, _ => .error .typeError

/-- One iteration of the loop body shared by `get_in`'s walk:
`dct[int(x)]` when `x.isdigit() and isinstance(dct, list)`, otherwise
`dict(dct).get(x)`. -/
def getInStep (dct : Value) (x : String) : Except PyErr Value :=
  if pyIsDigit x && dct.isList then
    pyIndex dct (pyStrToNat x)
  else
    (pyDict dct).map (fun d => dictGet d x)

/-- The loop of `get_in` over the split path: every iteration runs fully
(so its exception propagates), `prev` is the value of `dct` at the start of
the last iteration, and after the loop the function returns `prev[x]` with
`x` the last segment, still a string. -/
def getInAux (dct : Value) (x : String) (rest : List String) : Except PyErr Value :=
  match rest with
  | [] =>
      match getInStep dct x with
      | .error e => .error e
      | .ok _ => getItem dct x
  | y :: ys =>
      match getInStep dct x with
      | .error e => .error e
      | .ok dct2 => getInAux dct2 y ys

/-- Python `path.split(sep)` for a one-character separator (the only kind any
call site uses; the default is `"."`).  Empty parts are kept and the result is
never empty: `"".split(".") == [""]`. -/
def pySplitAux (sep : Char) (acc : List Char) : List Char → List String
  | [] => [String.mk acc.reverse]
  | c :: cs =>
      if c = sep then String.mk acc.reverse :: pySplitAux sep [] cs
      else pySplitAux sep (c :: acc) cs

def pySplit (path : String) (sep : Char) : List String :=
  pySplitAux sep [] path.data

/-- `get_in(dct, path, sep=".")` from `orchestrator/api/helpers.py`.
`path.split(sep)` is never empty, so the walk always runs at least once. -/
def get_in (dct : Value) (path : String) (sep : Char := '.') : Except PyErr Value :=
  match pySplit path sep with
  | [] => .error .keyError
  | x :: xs => getInAux dct x xs

/-- An access step from the root of a tree to one of its children. -/
inductive Step where
  | key (k : String)
  | idx (i : Nat)

/-- Python dict `d[x] = v`: replace the first binding of `x` in place,
else append a new binding (insertion order). -/
def dictSet : List (String × Value) → String → Value → List (String × Value)
  | [], x, v => [(x, v)]
  | (k, w) :: d, x, v =>
      if k = x then (k, v) :: d else (k, w) :: dictSet d x v

/-- Rewrite the subtree of `root` reached by the step path `p`, setting key
`x` of the dict found there to `v`.  Positions that do not resolve leave the
tree unchanged (the walk in `update_in` only records resolvable positions). -/
def setAt (root : Value) : List Step → String → Value → Value
  | [], x, v =>
      match root with
      | .vdict d => .vdict (dictSet d x v)
      | r => r
  | .key k :: p, x, v =>
      match root with
      | .vdict d =>
          match d.lookup k with
          | some child => .vdict (dictSet d k (setAt child p x v))
          | none => .vdict d
      | r => r
  | .idx i :: p, x, v =>
      match root with
      | .vlist l =>
          match l.get? i with
          | some child => .vlist (l.set i (setAt child p x v))
          | none => .vlist l
      | r => r

/-- Walk state of `update_in`: the current `dct` value together with its
position inside the input tree.  `loc = some p` means `dct` is the subobject
of the root reached by steps `p`; `loc = none` means `dct` is a detached
object: `dict(dct)` built a shallow copy, `setdefault` inserted the fresh
`{}` into that copy, and the copy was dropped, so nothing reachable from the
root holds the fresh object. -/
structure WalkSt where
  dct : Value
  loc : Option (List Step)

/-- One iteration of `update_in`'s loop.  List branch: `dct = dct[int(x)]`.
Dict branch: `dct = dict(dct).setdefault(x, {})` — when the key is present
`setdefault` returns the shared existing child (still attached); when absent
it returns the fresh `{}` inserted only into the discarded copy (detached,
root unchanged). -/
def updateStep (st : WalkSt) (x : String) : Except PyErr WalkSt :=
  if pyIsDigit x && st.dct.isList then
    match st.dct with
    | .vlist l =>
        match l.get? (pyStrToNat x) with
        | some child => .ok ⟨child, st.loc.map (· ++ [Step.idx (pyStrToNat x)])⟩
        | none => .error .indexError
    | _ => .error .typeError
  else
    match pyDict st.dct with
    | .error e => .error e
    | .ok d =>
        match d.lookup x with
        | some child => .ok ⟨child, st.loc.map (· ++ [Step.key x])⟩
        | none => .ok ⟨.vdict [], none⟩

/-- The loop of `update_in` followed by `prev[x] = value`: the final write
goes to the object `prev` held before the last iteration.  When `prev` is a
dict still attached at position `p`, the root is rewritten there; when it is
a detached dict the write lands outside the tree and the root is returned
unchanged; when it is not a dict, Python raises `TypeError` (a list cannot
be assigned through a string index). -/
def updateInAux (root value : Value) (st : WalkSt) (x : String) (rest : List String) :
    Except PyErr Value :=
  match rest with
  | [] =>
      match updateStep st x with
      | .error e => .error e
      | .ok _ =>
          match st.dct, st.loc with
          | .vdict _, some p => .ok (setAt root p x value)
          | .vdict _, none => .ok root
          | _, _ => .error .typeError
  | y :: ys =>
      match updateStep st x with
      | .error e => .error e
      | .ok st2 => updateInAux root value st2 y ys

/-- `update_in(dct, path, value, sep=".")` from `orchestrator/api/helpers.py`,
as the function from the input tree to the tree after the call (the Python
function returns `None` and acts by mutation). -/
def update_in (dct : Value) (path : String) (value : Value) (sep : Char := '.') :
    Except PyErr Value :=
  match pySplit path sep with
  | [] => .ok dct
  | x :: xs => updateInAux dct value ⟨dct, some []⟩ x xs

example : get_in (.vdict [("a", .vdict [("b", .vint 3)])]) "a.b" = .ok (.vint 3) := rfl
example : get_in (.vlist [.vint 10, .vint 20, .vint 30]) "1" = .error .typeError := rfl
example : get_in (.vlist [.vint 10, .vint 20, .vint 30]) "5" = .error .indexError := rfl
example : get_in (.vdict []) "a" = .error .keyError := rfl
example : get_in (.vdict []) "a.b.c" = .error .typeError := rfl
example : update_in (.vdict []) "a.b.c" (.vint 5) = .ok (.vdict []) := rfl
example : update_in (.vdict []) "a" (.vint 5) = .ok (.vdict [("a", .vint 5)]) := rfl
example :
    update_in (.vdict [("a", .vdict [("b", .vint 1)])]) "a.b" (.vint 7) =
      .ok (.vdict [("a", .vdict [("b", .vint 7)])]) := rfl

/-!
Text-query sanitizer: `_quote_if_kv_pair` and `_process_text_query`.

The tokenizer is `shlex(q)` with `whitespace_split = True` and `quotes = '"'`,
i.e. CPython's non-POSIX shlex with whitespace `" \t\r\n"`, comment character
`'#'` (the constructor default, not overridden) and the double quote as the
only quote character.  In that configuration `read_token` is the state
machine below: a quote character opens a quoted span only at the start of a
token (mid-token quotes are kept literally), a quoted span keeps its quotes
and ends the token at the closing quote, `'#'` outside quotes skips the rest
of the line, and end of input inside a quoted span raises
`ValueError("No closing quotation")`.
-/

def isShlexWS (c : Char) : Bool :=
  c = ' ' || c = '\t' || c = '\r' || c = '\n'

inductive LexCont where
  | contStart
  | contWord (tok : String)

inductive LexSt where
  | start
  | word (tok : String)
  | inQuote (tok : String)
  | comment (k : LexCont)

def quoteChar : Char := Char.ofNat 34

def shlexRun : LexSt → List Char → Except Unit (List String)
  | .start, [] => .ok []
  | .start, c :: cs =>
      if isShlexWS c then shlexRun .start cs
      else if c = '#' then shlexRun (.comment .contStart) cs
      else if c = quoteChar then shlexRun (.inQuote (String.singleton quoteChar)) cs
      else shlexRun (.word (String.singleton c)) cs
  | .word tok, [] => .ok [tok]
  | .word tok, c :: cs =>
      if isShlexWS c then (shlexRun .start cs).map (tok :: ·)
      else if c = '#' then shlexRun (.comment (.contWord tok)) cs
      else shlexRun (.word (tok.push c)) cs
  | .inQuote _, [] => .error ()
  | .inQuote tok, c :: cs =>
      if c = quoteChar then (shlexRun .start cs).map ((tok.push quoteChar) :: ·)
      else shlexRun (.inQuote (tok.push c)) cs
  | .comment k, [] =>
      match k with
      | .contStart => .ok []
      | .contWord tok => .ok [tok]
  | .comment k, c :: cs =>
      if c = '\n' then
        match k with
        | .contStart => shlexRun .start cs
        | .contWord tok => shlexRun (.word tok) cs
      else shlexRun (.comment k) cs

def shlexTokenize (q : String) : Except Unit (List String) :=
  shlexRun .start q.data

/-- Python `q.count('"')`. -/
def countQuotes (q : String) : Nat :=
  (q.data.filter (· = quoteChar)).length

/-- The quote balancer at the top of `_process_text_query`: append one `"`
when the count of `"` characters is odd. -/
def balanceQuotes (q : String) : String :=
  if countQuotes q % 2 = 1 then q.push quoteChar else q

/-- `_quote_if_kv_pair(token)`: wrap the token in double quotes when it
contains a colon. -/
def quote_if_kv_pair (token : String) : String :=
  if ':' ∈ token.data then "\"" ++ token ++ "\"" else token

/-- The body of `_process_text_query` after the quote balancing: join the
quoted tokens with single spaces, and on a tokenization `ValueError` return
`q` — the balanced string, which already includes the appended quote. -/
def processBalanced (q : String) : String :=
  match shlexTokenize q with
  | .ok tokens => String.intercalate " " (tokens.map quote_if_kv_pair)
  | .error _ => q

/-- `_process_text_query(q)` from `orchestrator/api/helpers.py`. -/
def process_text_query (q : String) : String :=
  processBalanced (balanceQuotes q)

example : process_text_query "status:active" = "\"status:active\"" := rfl
example : process_text_query "hello world" = "hello world" := rfl
example : process_text_query "foo\"" = "foo\"\"" := rfl
example : shlexTokenize "a\" \"b\"\"" = .error () := rfl
example : process_text_query "a\" \"b\"" = "a\" \"b\"\"" := rfl
example : process_text_query "ab\"cd ef\"gh" = "ab\"cd ef\"gh" := by decide
example : process_text_query "a#b c" = "a" := by decide
example : shlexTokenize "x # comment\ny z" = .ok ["x", "y", "z"] := rfl
example : shlexTokenize "\"q w\" e" = .ok ["\"q w\"", "e"] := rfl
example : process_text_query "" = "" := rfl


/-!
The `_query_with_filters` compiler.

The SQLAlchemy `Query` object is modelled symbolically: the constructors
mirror the operations the source applies to it (`filter`, `join`,
`order_by`, `slice`).  Schema metadata is a collaborator concern: the set of
attribute names of `SubscriptionTable` (its `__dict__`) is passed in as
`subFields`; looking up a name not in it raises `KeyError`, which the source
does not catch.  `raise_status(HTTPStatus.BAD_REQUEST, msg)` is modelled as
`QueryError.badRequest msg`.  `query.count()` is the collaborator's row
count, passed in as the function `count`.
-/

/-- Python `s.endswith(suffix)`. -/
def pyEndsWith (s suffix : String) : Bool :=
  suffix.data.isSuffixOf s.data

/-- Python `s[:-n]` for `0 < n ≤ len(s)`. -/
def pyDropRight (s : String) (n : Nat) : String :=
  String.mk (s.data.take (s.data.length - n))

/-- Python `s.lower()` / `s.upper()` (ASCII, which is all the claims use). -/
def pyLower (s : String) : String :=
  String.mk (s.data.map Char.toLower)

def pyUpper (s : String) : String :=
  String.mk (s.data.map Char.toUpper)

/-- Left-to-right, non-overlapping deletion of every occurrence of the
pattern `p`, i.e. Python `s.replace(p, "")` for a nonempty `p`.  `skip`
counts characters of a just-matched occurrence still to be consumed. -/
def removeAux (p : List Char) (skip : Nat) : List Char → List Char
  | [] => []
  | c :: cs =>
      match skip with
      | n + 1 => removeAux p n cs
      | 0 =>
          if p.isPrefixOf (c :: cs) then removeAux p (p.length - 1) cs
          else c :: removeAux p 0 cs

def pyRemoveAll (pat : String) (s : List Char) : List Char :=
  removeAux pat.data 0 s

inductive FilterPred where
  | gt (field value : String)
  | gte (field value : String)
  | lte (field value : String)
  | lt (field value : String)
  | ne (field value : String)
  | insyncIs (b : Bool)
  | tagLowerIn (values : List String)
  | productNameLowerIn (values : List String)
  | statusIn (values : List String)
  | customerEq (uuid : Nat)
  | tsvMatch (query : String)
  | ilike (field pattern : String)
deriving DecidableEq

inductive Entity where
  | subscription
  | product
deriving DecidableEq

structure OrderItem where
  entity : Entity
  field : String
  descending : Bool
deriving DecidableEq

inductive Query where
  | base
  | filter (q : Query) (p : FilterPred)
  | join (q : Query) (view : String)
  | order_by (q : Query) (o : OrderItem)
  | slice (q : Query) (start stop : Int)
deriving DecidableEq

inductive QueryError where
  | badRequest (msg : String)
  | keyError (key : String)
deriving DecidableEq

/-- `uuid.UUID(value)`: drop every occurrence of `urn:` and of `uuid:`,
strip curly braces from both ends, drop every `-`, and require exactly 32
hexadecimal digits, whose base-16 value is the UUID.  (CPython's `int(h,16)`
additionally tolerates underscores between digits; no claim exercises
that.)  `none` models the `ValueError` raised on a malformed string. -/
def isHexChar (c : Char) : Bool :=
  c.isDigit || ('a' ≤ c && c ≤ 'f') || ('A' ≤ c && c ≤ 'F')

def hexVal (c : Char) : Nat :=
  if c.isDigit then c.toNat - 48
  else if 'a' ≤ c && c ≤ 'f' then c.toNat - 87
  else c.toNat - 55

def isBrace (c : Char) : Bool :=
  c = Char.ofNat 123 || c = Char.ofNat 125

def pyUUID (s : String) : Option Nat :=
  let h := pyRemoveAll "uuid:" (pyRemoveAll "urn:" s.data)
  let h := ((h.dropWhile isBrace).reverse.dropWhile isBrace).reverse
  let h := h.filter (fun c => !(c = '-'))
  if h.length = 32 && h.all isHexChar then
    some (h.foldl (fun n c => 16 * n + hexVal c) 0)
  else none

def sglQuote : String := String.singleton (Char.ofNat 39)

/-- The message passed to `raise_status` for a bad `organisation` value.  In
the source it is a plain (not `f`-) string, so the braces around `value` are
literal. -/
def uuidErrMsg : String :=
  "Not a valid customer_id, must be a UUID: " ++ sglQuote ++ "\x7bvalue\x7d" ++ sglQuote

/-- One `(field, value)` pair of the filter loop in `_query_with_filters`
(the `elif` chain on `field`).  `value` is typed `str` in the source, so the
`if value is not None` guard is always taken. -/
def processPair (subFields : List String) (q : Query) (field value : String) :
    Except QueryError Query :=
  let value_as_bool := ["yes", "y", "ye", "true", "1", "ja", "insync"].contains (pyLower value)
  if pyEndsWith field "_gt" then
    let f := pyDropRight field 3
    if subFields.contains f then .ok (q.filter (.gt f value)) else .error (.keyError f)
  else if pyEndsWith field "_gte" then
    let f := pyDropRight field 4
    if subFields.contains f then .ok (q.filter (.gte f value)) else .error (.keyError f)
  else if pyEndsWith field "_lte" then
    let f := pyDropRight field 4
    if subFields.contains f then .ok (q.filter (.lte f value)) else .error (.keyError f)
  else if pyEndsWith field "_lt" then
    let f := pyDropRight field 3
    if subFields.contains f then .ok (q.filter (.lt f value)) else .error (.keyError f)
  else if pyEndsWith field "_ne" then
    let f := pyDropRight field 3
    if subFields.contains f then .ok (q.filter (.ne f value)) else .error (.keyError f)
  else if field = "insync" then
    .ok (q.filter (.insyncIs value_as_bool))
  else if field = "tags" then
    .ok (q.filter (.tagLowerIn ((pySplit value '-').map pyLower)))
  else if field = "tag" then
    .ok (q.filter (.tagLowerIn ((pySplit value '-').map pyLower)))
  else if field = "product" then
    .ok (q.filter (.productNameLowerIn ((pySplit value '-').map pyLower)))
  else if field = "status" then
    .ok (q.filter (.statusIn ((pySplit value '-').map pyLower)))
  else if field = "statuses" then
    .ok (q.filter (.statusIn ((pySplit value '-').map pyLower)))
  else if field = "organisation" then
    match pyUUID value with
    | none => .error (.badRequest uuidErrMsg)
    | some u => .ok (q.filter (.customerEq u))
  else if field = "tsv" then
    .ok ((q.join "SubscriptionSearchView").filter (.tsvMatch (process_text_query value)))
  else if subFields.contains field then
    .ok (q.filter (.ilike field ("%" ++ value ++ "%")))
  else
    .ok q

/-- `more_itertools.chunked(xs, 2)`: consecutive chunks of two, the last
possibly a singleton; no empty chunk is produced. -/
def chunked2 {α : Type} : List α → List (List α)
  | [] => []
  | [a] => [[a]]
  | a :: b :: rest => [a, b] :: chunked2 rest

/-- The guard `if filter and len(filter) == 2` of the filter loop: chunks
that are not pairs contribute nothing. -/
def applyChunk (subFields : List String) (q : Query) : List String → Except QueryError Query
  | [a, b] => processPair subFields q a b
  | _ => .ok q

def applyFilters (subFields : List String) (q : Query) :
    List (List String) → Except QueryError Query
  | [] => .ok q
  | c :: cs =>
      match applyChunk subFields q c with
      | .ok q2 => applyFilters subFields q2 cs
      | .error e => .error e

/-- `if filters is not None: for filter in chunked(filters, 2): ...` -/
def filtersStage (subFields : List String) (q : Query) :
    Option (List String) → Except QueryError Query
  | none => .ok q
  | some fs => applyFilters subFields q (chunked2 fs)

/-- One `(key, direction)` pair of the sort loop, guarded by
`if item and len(item) == 2`.  `product`/`tag` keys order by the joined
product's `name`/`tag`; any other key orders by that attribute of
`SubscriptionTable` (a missing attribute raises `KeyError`); the direction
is descending exactly when `item[1].upper() == "DESC"`. -/
def sortPair (subFields : List String) (q : Query) : List String → Except QueryError Query
  | [k, d] =>
      if k = "product" || k = "tag" then
        let f := if k = "product" then "name" else "tag"
        if pyUpper d = "DESC" then .ok (q.order_by ⟨.product, f, true⟩)
        else .ok (q.order_by ⟨.product, f, false⟩)
      else
        if subFields.contains k then
          if pyUpper d = "DESC" then .ok (q.order_by ⟨.subscription, k, true⟩)
          else .ok (q.order_by ⟨.subscription, k, false⟩)
        else .error (.keyError k)
  | _ => .ok q

def applySorts (subFields : List String) (q : Query) :
    List (List String) → Except QueryError Query
  | [] => .ok q
  | c :: cs =>
      match sortPair subFields q c with
      | .ok q2 => applySorts subFields q2 cs
      | .error e => .error e

/-- `if sort is not None and len(sort) >= 2: for item in chunked(sort, 2)`. -/
def sortStage (subFields : List String) (q : Query) :
    Option (List String) → Except QueryError Query
  | none => .ok q
  | some s => if s.length ≥ 2 then applySorts subFields q (chunked2 s) else .ok q

/-- The range block of `_query_with_filters`: only a two-element range is
consumed; `start >= end` (the explicit `raise ValueError`) becomes the
`"Invalid range parameters"` client error; otherwise the total is taken by
`query.count()` on the unsliced query, the query is sliced to
`[start, end)`, and the `Content-Range` header value is produced.  The
elements arrive already typed `int`, so `int(range[0])` cannot fail. -/
def rangeStage (q : Query) (count : Query → Nat) :
    Option (List Int) → Except QueryError (Query × Option String)
  | some [s, e] =>
      if s ≥ e then .error (.badRequest "Invalid range parameters")
      else
        .ok (q.slice s e,
          some ("subscriptions " ++ toString s ++ "-" ++ toString e ++ "/" ++ toString (count q)))
  | _ => .ok (q, none)

/-- `_query_with_filters(response, query, range, sort, filters)`, returning
the compiled query (whose `.all()` the source returns) together with the
`Content-Range` header value set on the response, or the error raised. -/
def query_with_filters (subFields : List String) (q : Query) (count : Query → Nat)
    (range : Option (List Int)) (sort : Option (List String))
    (filters : Option (List String)) : Except QueryError (Query × Option String) :=
  match filtersStage subFields q filters with
  | .error e => .error e
  | .ok q1 =>
      match sortStage subFields q1 sort with
      | .error e => .error e
      | .ok q2 => rangeStage q2 count range

/-- Abstract data-store semantics for a compiled query: a base row set, a
predicate evaluator, a join restriction and an ordering, all supplied by the
collaborator.  `slice s e` is SQLAlchemy's `LIMIT (e - s) OFFSET s`. -/
structure Backend (Row : Type) where
  base : List Row
  evalPred : FilterPred → Row → Bool
  joinRows : String → List Row → List Row
  orderRows : OrderItem → List Row → List Row

def Query.rows {Row : Type} (B : Backend Row) : Query → List Row
  | .base => B.base
  | .filter q p => (Query.rows B q).filter (B.evalPred p)
  | .join q v => B.joinRows v (Query.rows B q)
  | .order_by q o => B.orderRows o (Query.rows B q)
  | .slice q s e => ((Query.rows B q).drop s.toNat).take (e - s).toNat

example :
    processPair [] .base "organisation" "not-a-uuid" = .error (.badRequest uuidErrMsg) := rfl
example :
    processPair [] .base "organisation" "12345678-1234-5678-1234-567812345678" =
      .ok (.filter .base (.customerEq 0x12345678123456781234567812345678)) := rfl
example :
    query_with_filters [] .base (fun _ => 25) (some [0, 10]) none none =
      .ok (.slice .base 0 10, some "subscriptions 0-10/25") := rfl
example :
    query_with_filters [] .base (fun _ => 25) (some [5, 5]) none none =
      .error (.badRequest "Invalid range parameters") := rfl
example :
    sortStage ["status"] .base (some ["product", "desc", "status", "asc"]) =
      .ok (.order_by (.order_by .base ⟨.product, "name", true⟩)
        ⟨.subscription, "status", false⟩) := rfl
example : processPair ["status"] .base "status_gt" "x" = .ok (.filter .base (.gt "status" "x")) := rfl
example : processPair [] .base "insync" "Yes" = .ok (.filter .base (.insyncIs true)) := rfl

/-!
`product_block_paths`: the generator `get_dict_items` walks a dict; a dict
value contributes its recursively prefixed child items followed by its own
`(key, value)` item; a list value contributes, for each element that is a
dict, that element's recursively prefixed items followed by the
`key.index` item; any other value contributes nothing.
-/

mutual

def getDictItems : List (String × Value) → List (String × Value)
  | [] => []
  | (k, .vdict d) :: rest =>
      ((getDictItems d).map (fun p => (k ++ "." ++ p.1, p.2)) ++ [(k, .vdict d)])
        ++ getDictItems rest
  | (k, .vlist l) :: rest => getListItems k 0 l ++ getDictItems rest
  | _ :: rest => getDictItems rest

def getListItems (k : String) (i : Nat) : List Value → List (String × Value)
  | [] => []
  | .vdict d :: rest =>
      ((getDictItems d).map (fun p => (k ++ "." ++ toString i ++ "." ++ p.1, p.2))
          ++ [(k ++ "." ++ toString i, .vdict d)])
        ++ getListItems k (i + 1) rest
  | _ :: rest => getListItems k (i + 1) rest

end

/-- `product_block_paths(subscription)` for a subscription already in dict
form (the `SubscriptionModel` branch only converts the model to its dict
first): the first components of `get_dict_items`. -/
def product_block_paths (subscription : List (String × Value)) : List String :=
  (getDictItems subscription).map Prod.fst

/-- The tree `{"a": {"b": 1}, "c": [{"d": 2}, 3]}` from the spec's
PathEnumerator example. -/
def enumExampleTree : List (String × Value) :=
  [("a", .vdict [("b", .vint 1)]), ("c", .vlist [.vdict [("d", .vint 2)], .vint 3])]

example : product_block_paths enumExampleTree = ["a", "c.0"] := by
  simp only [product_block_paths, enumExampleTree, getDictItems, getListItems,
    List.map_append, List.map_cons, List.map_nil, List.append_nil, List.nil_append]
  rfl

example : product_block_paths [("a", .vdict [("b", .vdict [("x", .vint 1)])])] = ["a.b", "a"] := by
  simp [product_block_paths, getDictItems, getListItems]

/-!
Helper lemmas shared by the claim theorems.
-/

theorem rangeStage_len_ne_two (q : Query) (c : Query → Nat) :
    ∀ (r : List Int), r.length ≠ 2 → rangeStage q c (some r) = .ok (q, none)
  | [], _ => rfl
  | [_], _ => rfl
  | [_, _], h => absurd rfl h
  | _ :: _ :: _ :: _, _ => rfl

theorem applyFilters_odd (sf : List String) :
    ∀ (fs : List String), fs.length % 2 = 1 → ∀ q : Query,
      applyFilters sf q (chunked2 fs) = applyFilters sf q (chunked2 fs.dropLast)
  | [], h, _ => by simp at h
  | [_], _, _ => rfl
  | a :: b :: rest, h, q => by
      have hr : rest.length % 2 = 1 := by
        simp only [List.length_cons] at h
        omega
      have hdl : (a :: b :: rest).dropLast = a :: b :: rest.dropLast := by
        cases rest with
        | nil => simp at hr
        | cons c cs => rfl
      rw [hdl]
      show applyFilters sf q ([a, b] :: chunked2 rest) =
        applyFilters sf q ([a, b] :: chunked2 rest.dropLast)
      simp only [applyFilters, applyChunk]
      cases hc : processPair sf q a b with
      | ok q2 => exact applyFilters_odd sf rest hr q2
      | error e => rfl

theorem processPair_organisation (sf : List String) (q : Query) (v : String) :
    processPair sf q "organisation" v =
      match pyUUID v with
      | none => .error (.badRequest uuidErrMsg)
      | some u => .ok (q.filter (.customerEq u)) := rfl

theorem product_block_paths_example_eval :
    product_block_paths enumExampleTree = ["a", "c.0"] := by
  simp only [product_block_paths, enumExampleTree, getDictItems, getListItems,
    List.map_append, List.map_cons, List.map_nil, List.append_nil, List.nil_append]
  rfl

/-!
The claims.
-/

/-- C1 (code_bug evidence): on the empty tree, `update_in(tree, "a.b.c", 5)`
leaves the tree empty — `dict(dct).setdefault` inserts the vivified
intermediate mappings into a discarded shallow copy, so nothing is written
through to the input tree — and the subsequent `get_in(tree, "a.b.c")`
raises `TypeError` (from `dict(None)`) instead of returning 5. -/
theorem update_in_autoviv_lost :
    update_in (.vdict []) "a.b.c" (.vint 5) = .ok (.vdict []) ∧
    get_in (.vdict []) "a.b.c" = .error .typeError :=
  ⟨rfl, rfl⟩

/-- C2 (code_bug evidence): `get_in([10, 20, 30], "1")` raises `TypeError`
— the final `return prev[x]` indexes the list with the string segment —
while `get_in([10, 20, 30], "5")` does fail with the out-of-range
`IndexError` during the walk. -/
theorem get_in_list_final_lookup :
    get_in (.vlist [.vint 10, .vint 20, .vint 30]) "1" = .error .typeError ∧
    get_in (.vlist [.vint 10, .vint 20, .vint 30]) "5" = .error .indexError :=
  ⟨rfl, rfl⟩

/-- C3 (counterexample): `get_in` does fail on a missing mapping key —
on the empty mapping, path `"a"` raises the key-lookup error `KeyError`,
so sequence-index overflow is not its only failure mode. -/
theorem get_in_missing_key_cex :
    get_in (.vdict []) "a" = .error .keyError :=
  rfl

/-- C3 (amended): a missing mapping key at the final segment makes `get_in`
raise a key-lookup error (the walk's `dict(dct).get(x)` defaults to `None`,
not to an empty mapping, and the final `prev[x]` is a plain lookup), and a
missing key at a non-final segment leads to a `TypeError` at the following
segment; so `get_in` can fail on mapping paths, not only on sequence-index
overflow. -/
theorem get_in_missing_key_fails :
    (∀ (d : List (String × Value)) (k : String), pySplit k '.' = [k] →
      d.lookup k = none → get_in (.vdict d) k = .error .keyError) ∧
    get_in (.vdict []) "a.b" = .error .typeError := by
  refine ⟨fun d k hsep hmiss => ?_, rfl⟩
  unfold get_in
  rw [hsep]
  have hstep : getInStep (.vdict d) k = .ok (dictGet d k) := by
    simp [getInStep, Value.isList, pyDict, Except.map]
  simp only [getInAux, hstep]
  simp [getItem, hmiss]

theorem get_in_missing_key_fails_witness :
    get_in (.vdict [("x", .vint 1)]) "a" = .error .keyError :=
  get_in_missing_key_fails.1 [("x", .vint 1)] "a" rfl rfl

/-- C4 (counterexample): on `{"a": {"b": 1}, "c": [{"d": 2}, 3]}` the path
enumerator yields neither `"a.b"` nor `"c.0.d"` — scalar leaves produce no
paths — contradicting the claim that those paths appear. -/
theorem product_block_paths_missing_leaf_cex :
    "a.b" ∉ product_block_paths enumExampleTree ∧
    "c.0.d" ∉ product_block_paths enumExampleTree := by
  rw [product_block_paths_example_eval]
  decide

/-- C4 (amended): on `{"a": {"b": 1}, "c": [{"d": 2}, 3]}` the enumerator
yields exactly `["a", "c.0"]` — only paths addressing mappings appear
(scalar leaves yield no entry) — and on the nested mapping
`{"a": {"b": {"x": 1}}}` it yields `["a.b", "a"]`, the descendant mapping's
path before the mapping that holds it (depth-first, children first). -/
theorem product_block_paths_mapping_paths :
    product_block_paths enumExampleTree = ["a", "c.0"] ∧
    product_block_paths [("a", .vdict [("b", .vdict [("x", .vint 1)])])] = ["a.b", "a"] := by
  refine ⟨product_block_paths_example_eval, ?_⟩
  simp [product_block_paths, getDictItems, getListItems]

/-- C5 (counterexample): on input `a" "b"` (three quote characters, so one
`"` is appended) tokenization still fails — the first quote is consumed
literally inside a word, leaving an unclosed quoted span — and the function
returns the quote-balanced string `a" "b""`, which differs from the
original, unmodified input. -/
theorem process_text_query_error_cex :
    shlexTokenize (balanceQuotes "a\" \"b\"") = .error () ∧
    process_text_query "a\" \"b\"" ≠ "a\" \"b\"" :=
  ⟨rfl, by decide⟩

/-- C5 (amended): `_process_text_query` never raises; `status:active` is
quoted, `hello world` is returned unchanged, an odd count of `"` characters
makes it append one `"` before tokenizing, any token containing `:` is
wrapped in double quotes, and on a tokenization error it returns the
quote-balanced input (equal to the original input only when the quote count
was even). -/
theorem process_text_query_props :
    process_text_query "status:active" = "\"status:active\"" ∧
    process_text_query "hello world" = "hello world" ∧
    (∀ q : String, countQuotes q % 2 = 1 →
      process_text_query q = processBalanced (q.push quoteChar)) ∧
    (∀ q : String, shlexTokenize (balanceQuotes q) = .error () →
      process_text_query q = balanceQuotes q) ∧
    (∀ t : String, ':' ∈ t.data → quote_if_kv_pair t = "\"" ++ t ++ "\"") := by
  refine ⟨rfl, rfl, fun q h => ?_, fun q h => ?_, fun t h => ?_⟩
  · unfold process_text_query balanceQuotes
    rw [if_pos h]
  · unfold process_text_query processBalanced
    rw [h]
  · unfold quote_if_kv_pair
    rw [if_pos h]

theorem process_text_query_props_witness :
    process_text_query "x\"" = processBalanced ("x\"".push quoteChar) ∧
    process_text_query "a\" \"b\"" = balanceQuotes "a\" \"b\"" ∧
    quote_if_kv_pair "k:v" = "\"" ++ "k:v" ++ "\"" :=
  ⟨process_text_query_props.2.2.1 "x\"" (by decide),
   process_text_query_props.2.2.2.1 "a\" \"b\"" rfl,
   process_text_query_props.2.2.2.2 "k:v" (by decide)⟩

theorem ite_ok_keyError_ne_badRequest {c : Prop} [Decidable c] (a : Query) (k m : String) :
    (if c then Except.ok a else Except.error (QueryError.keyError k)) ≠
      Except.error (QueryError.badRequest m) := by
  by_cases h : c
  · rw [if_pos h]
    exact fun hh => Except.noConfusion hh
  · rw [if_neg h]
    intro hh
    injection hh with h2
    exact QueryError.noConfusion h2

theorem ite_ok_ok_ne_badRequest {c : Prop} [Decidable c] (a b : Query) (m : String) :
    (if c then Except.ok a else Except.ok b) ≠ Except.error (QueryError.badRequest m) := by
  by_cases h : c
  · rw [if_pos h]
    exact fun hh => Except.noConfusion hh
  · rw [if_neg h]
    exact fun hh => Except.noConfusion hh

/-- C6 (confirmed): an `organisation` filter whose value is not a valid
UUID makes the whole operation fail with the 400 client error whose message
contains "must be a UUID" (and nothing is executed: `query_with_filters`
returns that error); a well-formed UUID value compiles to the exact-equality
predicate on the subscription's customer id; and no other filter field can
produce a `raise_status` client error. -/
theorem organisation_filter (subFields : List String) (q : Query) (v : String) :
    (pyUUID v = none →
      processPair subFields q "organisation" v = .error (.badRequest uuidErrMsg)) ∧
    (∀ u : Nat, pyUUID v = some u →
      processPair subFields q "organisation" v = .ok (q.filter (.customerEq u))) ∧
    (∃ pre post : String, uuidErrMsg = pre ++ "must be a UUID" ++ post) ∧
    (∀ (count : Query → Nat) (range : Option (List Int)) (sort : Option (List String)),
      pyUUID v = none →
      query_with_filters subFields q count range sort (some ["organisation", v]) =
        .error (.badRequest uuidErrMsg)) ∧
    (∀ f w : String, f ≠ "organisation" → ∀ m : String,
      processPair subFields q f w ≠ .error (.badRequest m)) := by
  refine ⟨fun h => ?_, fun u h => ?_,
    ⟨"Not a valid customer_id, ", ": " ++ sglQuote ++ "\x7bvalue\x7d" ++ sglQuote, by decide⟩,
    fun count range sort h => ?_, fun f w hf m => ?_⟩
  · rw [processPair_organisation, h]
  · rw [processPair_organisation, h]
  · simp [query_with_filters, filtersStage, chunked2, applyFilters, applyChunk,
      processPair_organisation, h]
  · simp only [processPair]
    by_cases c1 : pyEndsWith f "_gt" = true
    · rw [if_pos c1]
      exact ite_ok_keyError_ne_badRequest _ _ _
    rw [if_neg c1]
    by_cases c2 : pyEndsWith f "_gte" = true
    · rw [if_pos c2]
      exact ite_ok_keyError_ne_badRequest _ _ _
    rw [if_neg c2]
    by_cases c3 : pyEndsWith f "_lte" = true
    · rw [if_pos c3]
      exact ite_ok_keyError_ne_badRequest _ _ _
    rw [if_neg c3]
    by_cases c4 : pyEndsWith f "_lt" = true
    · rw [if_pos c4]
      exact ite_ok_keyError_ne_badRequest _ _ _
    rw [if_neg c4]
    by_cases c5 : pyEndsWith f "_ne" = true
    · rw [if_pos c5]
      exact ite_ok_keyError_ne_badRequest _ _ _
    rw [if_neg c5]
    by_cases c6 : f = "insync"
    · rw [if_pos c6]
      exact fun hh => Except.noConfusion hh
    rw [if_neg c6]
    by_cases c7 : f = "tags"
    · rw [if_pos c7]
      exact fun hh => Except.noConfusion hh
    rw [if_neg c7]
    by_cases c8 : f = "tag"
    · rw [if_pos c8]
      exact fun hh => Except.noConfusion hh
    rw [if_neg c8]
    by_cases c9 : f = "product"
    · rw [if_pos c9]
      exact fun hh => Except.noConfusion hh
    rw [if_neg c9]
    by_cases c10 : f = "status"
    · rw [if_pos c10]
      exact fun hh => Except.noConfusion hh
    rw [if_neg c10]
    by_cases c11 : f = "statuses"
    · rw [if_pos c11]
      exact fun hh => Except.noConfusion hh
    rw [if_neg c11]
    rw [if_neg hf]
    by_cases c13 : f = "tsv"
    · rw [if_pos c13]
      exact fun hh => Except.noConfusion hh
    rw [if_neg c13]
    exact ite_ok_ok_ne_badRequest _ _ _

theorem organisation_filter_witness :
    processPair [] .base "organisation" "not-a-uuid" = .error (.badRequest uuidErrMsg) ∧
    processPair [] .base "organisation" "12345678-1234-5678-1234-567812345678" =
      .ok (.filter .base (.customerEq 0x12345678123456781234567812345678)) ∧
    query_with_filters [] .base (fun _ => 0) none none (some ["organisation", "not-a-uuid"]) =
      .error (.badRequest uuidErrMsg) ∧
    processPair [] .base "status" "active" ≠ .error (.badRequest "x") :=
  ⟨(organisation_filter [] .base "not-a-uuid").1 rfl,
   (organisation_filter [] .base "12345678-1234-5678-1234-567812345678").2.1
     0x12345678123456781234567812345678 rfl,
   (organisation_filter [] .base "not-a-uuid").2.2.2.1 (fun _ => 0) none none rfl,
   (organisation_filter [] .base "not-a-uuid").2.2.2.2 "status" "active" (by decide) "x"⟩

/-- C7 (confirmed): with a supplied two-element range, `start >= end` fails
with the "Invalid range parameters" client error; otherwise the total is the
row count of the filtered-but-unsliced query, the query is sliced to
`[start, end)` (so at most `end - start` rows are returned), and the
`Content-Range` header is exactly `subscriptions {start}-{end}/{total}`. -/
theorem range_pagination {Row : Type} (B : Backend Row) (subFields : List String)
    (q : Query) (s e : Int) :
    (s ≥ e →
      query_with_filters subFields q (fun qq => (Query.rows B qq).length)
          (some [s, e]) none none =
        .error (.badRequest "Invalid range parameters")) ∧
    (s < e →
      query_with_filters subFields q (fun qq => (Query.rows B qq).length)
          (some [s, e]) none none =
        .ok (q.slice s e,
          some ("subscriptions " ++ toString s ++ "-" ++ toString e ++ "/" ++
            toString (Query.rows B q).length)) ∧
      (Query.rows B (q.slice s e)).length ≤ (e - s).toNat) := by
  constructor
  · intro h
    show rangeStage q (fun qq => (Query.rows B qq).length) (some [s, e]) = _
    simp only [rangeStage]
    rw [if_pos h]
  · intro h
    refine ⟨?_, ?_⟩
    · show rangeStage q (fun qq => (Query.rows B qq).length) (some [s, e]) = _
      simp only [rangeStage]
      rw [if_neg (not_le.mpr h)]
    · show (((Query.rows B q).drop s.toNat).take (e - s).toNat).length ≤ (e - s).toNat
      rw [List.length_take]
      exact min_le_left _ _

/-- A concrete collaborator with 25 rows, the identity ordering and join,
and the always-true predicate. -/
def B25 : Backend Nat :=
  ⟨List.range 25, fun _ _ => true, fun _ l => l, fun _ l => l⟩

theorem range_pagination_witness :
    query_with_filters [] .base (fun qq => (Query.rows B25 qq).length) (some [0, 10]) none none =
      .ok (.slice .base 0 10, some "subscriptions 0-10/25") ∧
    (Query.rows B25 (Query.slice .base 0 10)).length ≤ 10 ∧
    query_with_filters [] .base (fun qq => (Query.rows B25 qq).length) (some [5, 5]) none none =
      .error (.badRequest "Invalid range parameters") ∧
    query_with_filters [] .base (fun qq => (Query.rows B25 qq).length) (some [10, 3]) none none =
      .error (.badRequest "Invalid range parameters") :=
  ⟨((range_pagination B25 [] .base 0 10).2 (by decide)).1,
   ((range_pagination B25 [] .base 0 10).2 (by decide)).2,
   (range_pagination B25 [] .base 5 5).1 (by decide),
   (range_pagination B25 [] .base 10 3).1 (by decide)⟩

/-- C8 (confirmed): a filter-token list of odd length compiles to the same
query as the list with its trailing element dropped — tokens are consumed
two at a time and the dangling singleton chunk is skipped. -/
theorem odd_trailing_filter_ignored (subFields : List String) (q : Query)
    (count : Query → Nat) (range : Option (List Int)) (sort : Option (List String))
    (fs : List String) (h : fs.length % 2 = 1) :
    query_with_filters subFields q count range sort (some fs) =
      query_with_filters subFields q count range sort (some fs.dropLast) := by
  simp only [query_with_filters, filtersStage]
  rw [applyFilters_odd subFields fs h q]

theorem odd_trailing_filter_ignored_witness :
    query_with_filters [] .base (fun _ => 0) none none (some ["status", "active", "x"]) =
      query_with_filters [] .base (fun _ => 0) none none (some ["status", "active"]) :=
  odd_trailing_filter_ignored [] .base (fun _ => 0) none none ["status", "active", "x"]
    (by decide)

/-- C10 (implicit, confirmed): a supplied range list whose length is not 2
is treated exactly as if no range were supplied: no validation, no error, no
Content-Range header, and the query is left unsliced. -/
theorem range_wrong_length_ignored (subFields : List String) (q : Query)
    (count : Query → Nat) (sort : Option (List String)) (filters : Option (List String))
    (r : List Int) (h : r.length ≠ 2) :
    query_with_filters subFields q count (some r) sort filters =
      query_with_filters subFields q count none sort filters ∧
    rangeStage q count (some r) = .ok (q, none) := by
  refine ⟨?_, rangeStage_len_ne_two q count r h⟩
  unfold query_with_filters
  cases hf : filtersStage subFields q filters with
  | error e => rfl
  | ok q1 =>
      dsimp only
      cases hs : sortStage subFields q1 sort with
      | error e => rfl
      | ok q2 =>
          dsimp only
          rw [rangeStage_len_ne_two q2 count r h]
          rfl

theorem range_wrong_length_ignored_witness :
    query_with_filters [] .base (fun _ => 7) (some [1, 2, 3]) none none =
      query_with_filters [] .base (fun _ => 7) none none none ∧
    rangeStage .base (fun _ => 7) (some [1, 2, 3]) = .ok (.base, none) :=
  range_wrong_length_ignored [] .base (fun _ => 7) none none [1, 2, 3] (by decide)

/-- C9 (confirmed): the sort-token list is consumed only when its length is
at least 2, and pairs are compiled in encounter order — the first pair is
the outermost-first ordering criterion.  `product`/`tag` keys order by the
joined product's `name`/`tag`; any other key present on the subscription
schema orders by that field of the primary record; the direction is
descending exactly when the direction token upper-cases to `DESC`.  In
particular `["product", "desc", "status", "asc"]` orders by product name
descending and then by subscription status ascending. -/
theorem sort_compiler (subFields : List String) (q : Query) :
    (∀ s : List String, s.length < 2 → sortStage subFields q (some s) = .ok q) ∧
    (subFields.contains "status" = true →
      sortStage subFields q (some ["product", "desc", "status", "asc"]) =
        .ok ((q.order_by ⟨.product, "name", true⟩).order_by
          ⟨.subscription, "status", false⟩)) ∧
    (∀ d : String, sortPair subFields q ["product", d] =
      .ok (q.order_by ⟨.product, "name", pyUpper d == "DESC"⟩)) ∧
    (∀ d : String, sortPair subFields q ["tag", d] =
      .ok (q.order_by ⟨.product, "tag", pyUpper d == "DESC"⟩)) ∧
    (∀ k d : String, k ≠ "product" → k ≠ "tag" → subFields.contains k = true →
      sortPair subFields q [k, d] =
        .ok (q.order_by ⟨.subscription, k, pyUpper d == "DESC"⟩)) := by
  refine ⟨fun s hs => ?_, fun h => ?_, fun d => ?_, fun d => ?_, fun k d hk ht hin => ?_⟩
  · simp only [sortStage]
    rw [if_neg (by omega)]
  · show applySorts subFields q [["product", "desc"], ["status", "asc"]] = _
    have h1 : sortPair subFields q ["product", "desc"] =
        .ok (q.order_by ⟨.product, "name", true⟩) := rfl
    simp only [applySorts, h1]
    have h2 : sortPair subFields (q.order_by ⟨.product, "name", true⟩) ["status", "asc"] =
        .ok ((q.order_by ⟨.product, "name", true⟩).order_by
          ⟨.subscription, "status", false⟩) := by
      simp only [sortPair]
      rw [if_neg (by decide), if_pos h]
      rfl
    simp only [h2, applySorts]
  · by_cases hd : pyUpper d = "DESC"
    · simp only [sortPair]
      rw [if_pos (by decide), if_pos hd]
      simp [hd]
    · simp only [sortPair]
      rw [if_pos (by decide), if_neg hd]
      simp [hd]
  · by_cases hd : pyUpper d = "DESC"
    · simp only [sortPair]
      rw [if_pos (by decide), if_pos hd]
      simp [hd]
    · simp only [sortPair]
      rw [if_pos (by decide), if_neg hd]
      simp [hd]
  · have hor : ¬((k = "product" || k = "tag") = true) := by
      simp [hk, ht]
    by_cases hd : pyUpper d = "DESC"
    · simp only [sortPair]
      rw [if_neg hor, if_pos hin, if_pos hd]
      simp [hd]
    · simp only [sortPair]
      rw [if_neg hor, if_pos hin, if_neg hd]
      simp [hd]

theorem sort_compiler_witness :
    sortStage ["status"] .base (some ["product"]) = .ok .base ∧
    sortStage ["status"] .base (some ["product", "desc", "status", "asc"]) =
      .ok ((Query.base.order_by ⟨.product, "name", true⟩).order_by
        ⟨.subscription, "status", false⟩) ∧
    sortPair ["status"] .base ["status", "whatever"] =
      .ok (.order_by .base ⟨.subscription, "status", false⟩) :=
  ⟨(sort_compiler ["status"] .base).1 ["product"] (by decide),
   (sort_compiler ["status"] .base).2.1 (by decide),
   (sort_compiler ["status"] .base).2.2.2.2 "status" "whatever"
     (by decide) (by decide) (by decide)⟩
